import Mathlib

/-!
# Verification of the go-iden3 identity core

Shallow embedding of the repository's identity layer: the proof-of-work and
timestamp utilities (`utils/utils.go`, package `utils`), the v1 DID codec
(package `core`, string-valued `DIDMethod`) and the v2 DID codec (package
`core` in `utils/utils.go`, byte-valued `DIDMethod`).

Bytes are modelled as `Nat` values (< 256 where it matters), byte arrays and
slices as `List Nat`, Go's `(value, error)` returns as `Except`/`Option`, and
Go panics (out-of-bounds slicing) as an explicit `none` branch.
-/

namespace Iden3

/-! ## Package `utils`: proof of work and timestamps -/

/-- `CheckPoW` from `utils/utils.go`:

```go
func CheckPoW(hash Hash, difficulty int) bool {
    var empty [32]byte
    if !bytes.Equal(hash.Bytes()[0:difficulty], empty[0:difficulty]) {
        return false
    }
    return true
}
```

`Hash` is a 32-byte digest, modelled as a `List Nat` of length 32.  The Go
slicing `hash.Bytes()[0:difficulty]` (and `empty[0:difficulty]`) panics
whenever `difficulty < 0` or `difficulty > 32`; the panic is modelled as the
`none` result.  In bounds, the function returns whether the first
`difficulty` bytes of the hash are all zero. -/
def CheckPoW (hash : List Nat) (difficulty : Int) : Option Bool :=
  if 0 ≤ difficulty ∧ difficulty ≤ 32 then
    some (hash.take difficulty.toNat == List.replicate difficulty.toNat 0)
  else
    none

/-- Number of leading zero bits of a single byte (values ≥ 256 are treated as
having none; all inputs in use are < 256). -/
def byteLeadingZeros (b : Nat) : Nat :=
  if 128 ≤ b then 0
  else if 64 ≤ b then 1
  else if 32 ≤ b then 2
  else if 16 ≤ b then 3
  else if 8 ≤ b then 4
  else if 4 ≤ b then 5
  else if 2 ≤ b then 6
  else if 1 ≤ b then 7
  else 8

/-- Number of leading zero bits of a big-endian byte string. -/
def leadingZeroBits : List Nat → Nat
  | [] => 0
  | b :: rest => if b = 0 then 8 + leadingZeroBits rest else byteLeadingZeros b

/-- `VerifyTimestamp` from `utils/utils.go`:

```go
func VerifyTimestamp(timestamp uint64, timelimit int) bool {
    t := time.Unix(int64(timestamp), 10)
    elapsed := time.Since(t)
    if int(elapsed.Seconds()) > timelimit {
        return false
    }
    return true
}
```

The ambient wall clock (`time.Since`) is made an explicit parameter `nowNs`
(nanoseconds since the Unix epoch).  `int64(timestamp)` wraps values
`≥ 2^63`; `time.Unix(sec, 10)` is `sec` seconds plus 10 nanoseconds;
`int(elapsed.Seconds())` truncates the elapsed seconds toward zero, which is
the truncating division `Int.tdiv` of the elapsed nanoseconds by 10^9. -/
def int64OfUint64 (t : Nat) : Int :=
  if t % 18446744073709551616 < 9223372036854775808 then
    ((t % 18446744073709551616 : Nat) : Int)
  else
    ((t % 18446744073709551616 : Nat) : Int) - 18446744073709551616

/-- The time `time.Unix(int64(timestamp), 10)` in nanoseconds since the epoch. -/
def unixTimeNs (timestamp : Nat) : Int :=
  int64OfUint64 timestamp * 1000000000 + 10

/-- `int(elapsed.Seconds())`: the elapsed whole seconds, truncated toward zero. -/
def elapsedSeconds (nowNs : Int) (timestamp : Nat) : Int :=
  Int.tdiv (nowNs - unixTimeNs timestamp) 1000000000

def VerifyTimestamp (nowNs : Int) (timestamp : Nat) (timelimit : Int) : Bool :=
  if elapsedSeconds nowNs timestamp > timelimit then false else true

/-! ## The binary ID

The `ID` type, its checksum, `NewID`, `IDFromString` and `ID.String` are
repository code that is not included under `src/` (only their callers are),
so they are modelled from the spec. -/

/-- Modelled from the spec: the genesis field of an ID is 27 bytes (§3, §4.2;
`genesisLn` in the source). -/
def genesisLn : Nat := 27

/-- Modelled from the spec: the ID checksum is the little-endian sum of the
two type bytes and the 27 genesis bytes modulo 2^16, rendered as 2 bytes
(§4.1: "little-endian sum of all preceding bytes modulo 2^16"). -/
def CalculateChecksum (typ genesis : List Nat) : List Nat :=
  let s := ((typ ++ genesis).foldl (fun a b => a + b) 0) % 65536
  [s % 256, s / 256]

/-- Modelled from the spec: `NewID(typeBytes[2], genesis[27])` appends the
computed checksum, giving the 31-byte layout `[type:2][genesis:27][checksum:2]`
(§4.2, §6). -/
def NewID (typ genesis : List Nat) : List Nat :=
  typ ++ genesis ++ CalculateChecksum typ genesis

/-- Modelled from the spec: `VerifyChecksum(id)` recomputes the checksum over
the first 29 bytes and compares it with the trailing 2 bytes (§4.1;
`CheckChecksum` in the source). -/
def CheckChecksum (id : List Nat) : Bool :=
  id.drop 29 == CalculateChecksum (id.take 2) ((id.drop 2).take genesisLn)

/-! ### Base58, the textual ID encoding

Modelled from the spec (§3, §4.2): the `<id-string>` segment of a DID is a
base58 rendering of the 31 ID bytes (Bitcoin alphabet).  All recursions are
fuel-based so that concrete instances evaluate inside the kernel. -/

def b58Alphabet : List Char :=
  "123456789ABCDEFGHJKLMNPQRSTUVWXYZabcdefghijkmnopqrstuvwxyz".toList

def b58Index (c : Char) : Option Nat :=
  b58Alphabet.findIdx? (fun x => x == c)

/-- The numeric value of a base58 digit string; `none` on a foreign character. -/
def b58DecodeNat (cs : List Char) : Option Nat :=
  cs.foldl
    (fun acc c =>
      match acc, b58Index c with
      | some n, some i => some (n * 58 + i)
      | _, _ => none)
    (some 0)

/-- Minimal big-endian byte rendering of a natural number (fuel-based). -/
def natToBytesBEAux : Nat → Nat → List Nat
  | 0, _ => []
  | fuel + 1, n => if n = 0 then [] else natToBytesBEAux fuel (n / 256) ++ [n % 256]

def natToBytesBE (n : Nat) : List Nat :=
  natToBytesBEAux n n

/-- Modelled from the spec: base58 decoding — leading `1` characters become
leading zero bytes, the rest is the big-endian rendering of the base58 value. -/
def b58Decode (s : String) : Option (List Nat) :=
  match b58DecodeNat s.toList with
  | none => none
  | some n =>
      some (List.replicate ((s.toList.takeWhile (fun c => c == '1')).length) 0
        ++ natToBytesBE n)

/-- Base58 digit characters of a natural number (fuel-based). -/
def natToB58CharsAux : Nat → Nat → List Char
  | 0, _ => []
  | fuel + 1, n =>
      if n = 0 then [] else natToB58CharsAux fuel (n / 58) ++ [b58Alphabet.getD (n % 58) '1']

def natToB58Chars (n : Nat) : List Char :=
  natToB58CharsAux n n

/-- Modelled from the spec: base58 encoding of a byte string, inverse to
`b58Decode` — leading zero bytes become `1` characters. -/
def b58Encode (bs : List Nat) : String :=
  String.mk (List.replicate ((bs.takeWhile (fun b => b == 0)).length) '1'
    ++ natToB58Chars (bs.foldl (fun a b => a * 256 + b) 0))

/-- Modelled from the spec: `ParseID` / `IDFromString` base58-decodes the
textual form and fails when the decoded length is not 31 bytes (§4.2). -/
def IDFromString (s : String) : Option (List Nat) :=
  match b58Decode s with
  | none => none
  | some b => if b.length = 31 then some b else none

/-- Modelled from the spec: `ID.String()` is the base58 rendering of the 31
ID bytes. -/
def idToString (id : List Nat) : String :=
  b58Encode id

/-! ### The external generic DID parser and string form

`didw3c.DID` (and the v1 `DID` type of the same shape) is the external
generic-DID-string parser's type: a method name and 1–3 path segments, the
last of which is the textual ID. -/

/-- The parsed form of a DID string: `did:<Method>:<IDStrings[0]>:...`. -/
structure DID where
  Method : String
  IDStrings : List String
deriving DecidableEq, Repr

/-- Modelled from the spec (§6): `DID.String()` joins the schema literal, the
method and the segments with `:`. -/
def didToString (did : DID) : String :=
  "did:" ++ did.Method ++ ":" ++ String.intercalate ":" did.IDStrings

/-- Modelled from the spec (§6): the generic DID parser accepts
`did:<method>:<1–3 segments>` and returns the structured form. -/
def parseDID (s : String) : Option DID :=
  match s.splitOn ":" with
  | "did" :: method :: rest =>
      if 1 ≤ rest.length ∧ rest.length ≤ 3 then some ⟨method, rest⟩ else none
  | _ => none

/-! ### UTF-8 bytes of a string -/

/-- UTF-8 encoding of a single code point. -/
def utf8Bytes (c : Nat) : List Nat :=
  if c < 128 then [c]
  else if c < 2048 then [192 + c / 64, 128 + c % 64]
  else if c < 65536 then [224 + c / 4096, 128 + (c / 64) % 64, 128 + c % 64]
  else [240 + c / 262144, 128 + (c / 4096) % 64, 128 + (c / 64) % 64, 128 + c % 64]

/-- The UTF-8 bytes of a string (`[]byte(s)` in Go). -/
def strBytes (s : String) : List Nat :=
  (s.toList.map (fun c => utf8Bytes c.toNat)).flatten

/-! ### SHA-256

`crypto/sha256` from the Go standard library, implemented per FIPS 180-4 on
32-bit words represented as `Nat` values reduced modulo 2^32.  Recursions are
structural (fuel-based) so concrete digests evaluate inside the kernel. -/

/-- Reduce to a 32-bit word. -/
def w32 (x : Nat) : Nat := x % 4294967296

/-- 32-bit right rotation. -/
def rotr (n x : Nat) : Nat := w32 ((x >>> n) ||| (x <<< (32 - n)))

/-- 32-bit bitwise complement. -/
def bnot32 (x : Nat) : Nat := 4294967295 ^^^ x

def sha2Ch (x y z : Nat) : Nat := (x &&& y) ^^^ (bnot32 x &&& z)

def sha2Maj (x y z : Nat) : Nat := (x &&& y) ^^^ (x &&& z) ^^^ (y &&& z)

def bigSigma0 (x : Nat) : Nat := rotr 2 x ^^^ rotr 13 x ^^^ rotr 22 x

def bigSigma1 (x : Nat) : Nat := rotr 6 x ^^^ rotr 11 x ^^^ rotr 25 x

def smallSigma0 (x : Nat) : Nat := rotr 7 x ^^^ rotr 18 x ^^^ (x >>> 3)

def smallSigma1 (x : Nat) : Nat := rotr 17 x ^^^ rotr 19 x ^^^ (x >>> 10)

/-- The SHA-256 round constants (in decimal). -/
def sha2K : List Nat :=
  [1116352408, 1899447441, 3049323471, 3921009573,
   961987163, 1508970993, 2453635748, 2870763221,
   3624381080, 310598401, 607225278, 1426881987,
   1925078388, 2162078206, 2614888103, 3248222580,
   3835390401, 4022224774, 264347078, 604807628,
   770255983, 1249150122, 1555081692, 1996064986,
   2554220882, 2821834349, 2952996808, 3210313671,
   3336571891, 3584528711, 113926993, 338241895,
   666307205, 773529912, 1294757372, 1396182291,
   1695183700, 1986661051, 2177026350, 2456956037,
   2730485921, 2820302411, 3259730800, 3345764771,
   3516065817, 3600352804, 4094571909, 275423344,
   430227734, 506948616, 659060556, 883997877,
   958139571, 1322822218, 1537002063, 1747873779,
   1955562222, 2024104815, 2227730452, 2361852424,
   2428436474, 2756734187, 3204031479, 3329325298]

/-- The eight working registers of the compression function. -/
structure Sha2State where
  a : Nat
  b : Nat
  c : Nat
  d : Nat
  e : Nat
  f : Nat
  g : Nat
  hh : Nat
deriving Repr, DecidableEq

/-- The SHA-256 initial hash value (in decimal). -/
def sha2H0 : Sha2State :=
  ⟨1779033703, 3144134277, 1013904242, 2773480762,
   1359893119, 2600822924, 528734635, 1541459225⟩

/-- Message padding: append `0x80`, zeros to 56 mod 64, then the 64-bit
big-endian bit length. -/
def sha2Pad (msg : List Nat) : List Nat :=
  let len := msg.length
  let k := (64 + 56 - ((len + 1) % 64)) % 64
  let bitLen := 8 * len
  msg ++ [128] ++ List.replicate k 0 ++
    [(bitLen >>> 56) % 256, (bitLen >>> 48) % 256, (bitLen >>> 40) % 256,
     (bitLen >>> 32) % 256, (bitLen >>> 24) % 256, (bitLen >>> 16) % 256,
     (bitLen >>> 8) % 256, bitLen % 256]

/-- Split the padded message into 64-byte blocks (fuel-based). -/
def chunks64Aux : Nat → List Nat → List (List Nat)
  | 0, _ => []
  | fuel + 1, l => if l = [] then [] else l.take 64 :: chunks64Aux fuel (l.drop 64)

def chunks64 (l : List Nat) : List (List Nat) :=
  chunks64Aux l.length l

/-- Big-endian 32-bit words of a byte string. -/
def bytesToWords : List Nat → List Nat
  | a :: b :: c :: d :: rest =>
      (a * 16777216 + b * 65536 + c * 256 + d) :: bytesToWords rest
  | _ => []

/-- Extend the 16 message words to 64 (the message schedule), fuel-based. -/
def extendWords : Nat → List Nat → List Nat
  | 0, w => w
  | n + 1, w =>
      extendWords n (w ++
        [w32 (smallSigma1 (w.getD (w.length - 2) 0) + w.getD (w.length - 7) 0 +
          smallSigma0 (w.getD (w.length - 15) 0) + w.getD (w.length - 16) 0)])

/-- One round of the compression function. -/
def sha2Round (s : Sha2State) (ki wi : Nat) : Sha2State :=
  let t1 := w32 (s.hh + bigSigma1 s.e + sha2Ch s.e s.f s.g + ki + wi)
  let t2 := w32 (bigSigma0 s.a + sha2Maj s.a s.b s.c)
  ⟨w32 (t1 + t2), s.a, s.b, s.c, w32 (s.d + t1), s.e, s.f, s.g⟩

/-- Process one 64-byte block. -/
def sha2Block (s : Sha2State) (block : List Nat) : Sha2State :=
  let ws := extendWords 48 (bytesToWords block)
  let t := (sha2K.zip ws).foldl (fun st p => sha2Round st p.1 p.2) s
  ⟨w32 (s.a + t.a), w32 (s.b + t.b), w32 (s.c + t.c), w32 (s.d + t.d),
   w32 (s.e + t.e), w32 (s.f + t.f), w32 (s.g + t.g), w32 (s.hh + t.hh)⟩

/-- Big-endian bytes of a 32-bit word. -/
def wordBytes (x : Nat) : List Nat :=
  [(x >>> 24) % 256, (x >>> 16) % 256, (x >>> 8) % 256, x % 256]

/-- The 32 digest bytes of a final state. -/
def stateBytes (s : Sha2State) : List Nat :=
  wordBytes s.a ++ wordBytes s.b ++ wordBytes s.c ++ wordBytes s.d ++
    wordBytes s.e ++ wordBytes s.f ++ wordBytes s.g ++ wordBytes s.hh

/-- SHA-256 of a byte string (`sha256.Sum256` in Go). -/
def sha256 (msg : List Nat) : List Nat :=
  stateBytes ((chunks64 (sha2Pad msg)).foldl sha2Block sha2H0)

/-! ## Shared string constants

The `Blockchain` and `NetworkID` tokens, identical in both package versions. -/

def Ethereum : String := "eth"
def Polygon : String := "polygon"
def UnknownChain : String := "unknown"
def ReadOnly : String := "readonly"
def NoChain : String := ""
def Main : String := "main"
def Mumbai : String := "mumbai"
def Goerli : String := "goerli"
def UnknownNetwork : String := "unknown"
def NoNetwork : String := ""

/-- `DIDNetworkFlag`: a blockchain/network pair, the key of the type table. -/
structure DIDNetworkFlag where
  Blockchain : String
  NetworkID : String
deriving DecidableEq, Repr

/-- The per-method type table shared by both known methods:
`readonly/"" ↦ 0x00`, `polygon/main ↦ 0x11`, `polygon/mumbai ↦ 0x12`,
`eth/main ↦ 0x21`, `eth/goerli ↦ 0x22`. -/
def knownMethodTable : List (DIDNetworkFlag × Nat) :=
  [(⟨ReadOnly, NoNetwork⟩, 0),
   (⟨Polygon, Main⟩, 0x11),
   (⟨Polygon, Mumbai⟩, 0x12),
   (⟨Ethereum, Main⟩, 0x21),
   (⟨Ethereum, Goerli⟩, 0x22)]

/-! ## Package `core`, v1 (`src/unnamed/part_000`)

`DIDMethod` is a string; the method byte comes from the `DIDMethodByte` map. -/

namespace CoreV1

/-- The error values of the v1 package.  Each `invalidDID…` constructor is a
distinct wrap of `ErrInvalidDID`. -/
inductive Err where
  | invalidDIDTooMany
  | invalidDIDNoID
  | invalidDIDCantParseID
  | invalidDIDChecksum
  | invalidDIDMethodMismatch
  | invalidDIDBlockchainMismatch
  | invalidDIDNetworkMismatch
  | didMethodNotSupported
  | networkNotSupportedForDID
deriving DecidableEq, Repr

def DIDMethodIden3 : String := "iden3"
def DIDMethodPolygonID : String := "polygonid"

/-- `DIDMethodByte`: method name to method byte. -/
def DIDMethodByte : List (String × Nat) :=
  [(DIDMethodIden3, 1), (DIDMethodPolygonID, 2)]

/-- `DIDMethodNetwork`: the per-method type table (v1 has no entry for an
"other" method). -/
def DIDMethodNetwork (m : String) : Option (List (DIDNetworkFlag × Nat)) :=
  if m = DIDMethodIden3 then some knownMethodTable
  else if m = DIDMethodPolygonID then some knownMethodTable
  else none

/-- `BuildDIDType` (part_000 lines 104–120). -/
def BuildDIDType (method : String) (blockchain network : String) :
    Except Err (List Nat) :=
  match DIDMethodByte.find? (fun p => p.1 == method) with
  | none => .error .didMethodNotSupported
  | some fb =>
      match ((DIDMethodNetwork method).getD []).find?
          (fun p => p.1 == DIDNetworkFlag.mk
            (if blockchain = NoChain then ReadOnly else blockchain) network) with
      | none => .error .networkNotSupportedForDID
      | some sb => .ok [fb.2, sb.2]

/-- `FindNetworkIDForDIDMethodByValue` (part_000 lines 136–147). -/
def FindNetworkIDForDIDMethodByValue (method : String) (v : Nat) :
    Except Err String :=
  match DIDMethodNetwork method with
  | none => .error .didMethodNotSupported
  | some tbl =>
      match tbl.find? (fun p => p.2 == v) with
      | some p => .ok p.1.NetworkID
      | none => .error .networkNotSupportedForDID

/-- `FindBlockchainForDIDMethodByValue` (part_000 lines 150–161); note the
scan miss returns `ErrNetworkNotSupportedForDID` in v1. -/
def FindBlockchainForDIDMethodByValue (method : String) (v : Nat) :
    Except Err String :=
  match DIDMethodNetwork method with
  | none => .error .didMethodNotSupported
  | some tbl =>
      match tbl.find? (fun p => p.2 == v) with
      | some p => .ok p.1.Blockchain
      | none => .error .networkNotSupportedForDID

/-- `FindDIDMethodByValue` (part_000 lines 164–171). -/
def FindDIDMethodByValue (v : Nat) : Except Err String :=
  match DIDMethodByte.find? (fun p => p.2 == v) with
  | some p => .ok p.1
  | none => .error .didMethodNotSupported

/-- `decodeDIDPartsFromID` (part_000 lines 290–310); `id.MethodByte()` is
`id[0]` and `id.BlockchainNetworkByte()` is `id[1]`. -/
def decodeDIDPartsFromID (id : List Nat) :
    Except Err (String × String × String) :=
  let methodByte := id.getD 0 0
  let networkByte := id.getD 1 0
  match FindDIDMethodByValue methodByte with
  | .error e => .error e
  | .ok method =>
      match FindBlockchainForDIDMethodByValue method networkByte with
      | .error e => .error e
      | .ok blockchain =>
          match FindNetworkIDForDIDMethodByValue method networkByte with
          | .error e => .error e
          | .ok networkID => .ok (method, blockchain, networkID)

/-- `decodeIDFromDID` (part_000 lines 238–260). -/
def decodeIDFromDID (did : DID) : Except Err (List Nat) :=
  if did.IDStrings.length > 3 then .error .invalidDIDTooMany
  else if did.IDStrings.length < 1 then .error .invalidDIDNoID
  else
    match IDFromString (did.IDStrings.getLastD "") with
    | none => .error .invalidDIDCantParseID
    | some id =>
        if ¬ CheckChecksum id then .error .invalidDIDChecksum
        else .ok id

/-- `Decompose` (part_000 lines 201–231). -/
def Decompose (did : DID) : Except Err (String × String × List Nat) :=
  match decodeIDFromDID did with
  | .error e => .error e
  | .ok id =>
      match decodeDIDPartsFromID id with
      | .error e => .error e
      | .ok (method, blockchain, networkID) =>
          if method ≠ did.Method then .error .invalidDIDMethodMismatch
          else if 1 < did.IDStrings.length ∧ blockchain ≠ did.IDStrings.getD 0 "" then
            .error .invalidDIDBlockchainMismatch
          else if 2 < did.IDStrings.length ∧ networkID ≠ did.IDStrings.getD 1 "" then
            .error .invalidDIDNetworkMismatch
          else .ok (blockchain, networkID, id)

/-- `IDFromDID` (part_000 lines 233–236). -/
def IDFromDID (did : DID) : Except Err (List Nat) :=
  match Decompose did with
  | .error e => .error e
  | .ok (_, _, id) => .ok id

end CoreV1

/-! ## Package `core`, v2 (second part of `src/utils/utils.go`)

`DIDMethod` is a byte; the network byte table also has an entry for the
"other" method sentinel `0xFF`. -/

namespace CoreV2

/-- The error values of the v2 package.  Each `incorrectDID…` constructor is
a distinct wrap of `ErrIncorrectDID`; `methodUnknown` is the bare
`ErrMethodUnknown` (which `ParseDIDFromID` wraps without changing its
`errors.Is` identity); `unsupportedIDChecksum` wraps `ErrUnsupportedID`. -/
inductive Err where
  | unsupportedIDChecksum
  | incorrectDIDNumIDStrings
  | incorrectDIDCantParseID
  | incorrectDIDChecksum
  | incorrectDIDMethodMismatch
  | incorrectDIDBlockchainMismatch
  | incorrectDIDNetworkMismatch
  | methodUnknown
  | didMethodNotSupported
  | blockchainNotSupportedForDID
  | networkNotSupportedForDID
  | didParseFailed
deriving DecidableEq, Repr

def DIDMethodIden3 : Nat := 1
def DIDMethodPolygonID : Nat := 2
def DIDMethodPolygonIDOnChain : Nat := 0x82
def DIDMethodOther : Nat := 0xff

/-- `knownMethods` (utils.go lines 114–117). -/
def knownMethods : List Nat := [DIDMethodIden3, DIDMethodPolygonID]

/-- `DIDMethod.String()` (utils.go lines 119–130). -/
def methodString (m : Nat) : String :=
  if m = DIDMethodIden3 then "iden3"
  else if m = DIDMethodPolygonID then "polygonid"
  else if m = DIDMethodOther then ""
  else "unknown<" ++ toString m ++ ">"

/-- `DIDMethodNetwork` (utils.go lines 177–199). -/
def DIDMethodNetwork (m : Nat) : Option (List (DIDNetworkFlag × Nat)) :=
  if m = DIDMethodIden3 then some knownMethodTable
  else if m = DIDMethodPolygonID then some knownMethodTable
  else if m = DIDMethodOther then
    some [(⟨UnknownChain, UnknownNetwork⟩, 0xff)]
  else none

/-- `BuildDIDType` (utils.go lines 202–220). -/
def BuildDIDType (method : Nat) (blockchain network : String) :
    Except Err (List Nat) :=
  if method ∈ knownMethods then
    match ((DIDMethodNetwork method).getD []).find?
        (fun p => p.1 == DIDNetworkFlag.mk
          (if blockchain = NoChain then ReadOnly else blockchain) network) with
    | some sb => .ok [method, sb.2]
    | none => .error .networkNotSupportedForDID
  else .error .didMethodNotSupported

/-- `FindNetworkIDForDIDMethodByValue` (utils.go lines 223–234). -/
def FindNetworkIDForDIDMethodByValue (method : Nat) (v : Nat) :
    Except Err String :=
  match DIDMethodNetwork method with
  | none => .error .didMethodNotSupported
  | some tbl =>
      match tbl.find? (fun p => p.2 == v) with
      | some p => .ok p.1.NetworkID
      | none => .error .networkNotSupportedForDID

/-- `FindBlockchainForDIDMethodByValue` (utils.go lines 237–248); the v2 scan
miss returns `ErrBlockchainNotSupportedForDID`. -/
def FindBlockchainForDIDMethodByValue (method : Nat) (v : Nat) :
    Except Err String :=
  match DIDMethodNetwork method with
  | none => .error .didMethodNotSupported
  | some tbl =>
      match tbl.find? (fun p => p.2 == v) with
      | some p => .ok p.1.Blockchain
      | none => .error .blockchainNotSupportedForDID

/-- `decodeDIDPartsFromID` (utils.go lines 368–383); the method is the first
ID byte itself. -/
def decodeDIDPartsFromID (id : List Nat) :
    Except Err (Nat × String × String) :=
  let method := id.getD 0 0
  let networkByte := id.getD 1 0
  match FindBlockchainForDIDMethodByValue method networkByte with
  | .error e => .error e
  | .ok blockchain =>
      match FindNetworkIDForDIDMethodByValue method networkByte with
      | .error e => .error e
      | .ok networkID => .ok (method, blockchain, networkID)

/-- `idFromDID` (utils.go lines 283–333). -/
def idFromDID (did : DID) : Except Err (List Nat) :=
  if ¬ knownMethods.any (fun m => methodString m == did.Method) then
    .error .methodUnknown
  else if did.IDStrings.length > 3 ∨ did.IDStrings.length < 1 then
    .error .incorrectDIDNumIDStrings
  else
    match IDFromString (did.IDStrings.getLastD "") with
    | none => .error .incorrectDIDCantParseID
    | some id =>
        if ¬ CheckChecksum id then .error .incorrectDIDChecksum
        else
          match decodeDIDPartsFromID id with
          | .error e => .error e
          | .ok (method, blockchain, networkID) =>
              if methodString method ≠ did.Method then
                .error .incorrectDIDMethodMismatch
              else if 1 < did.IDStrings.length ∧ blockchain ≠ did.IDStrings.getD 0 "" then
                .error .incorrectDIDBlockchainMismatch
              else if 2 < did.IDStrings.length ∧ networkID ≠ did.IDStrings.getD 1 "" then
                .error .incorrectDIDNetworkMismatch
              else .ok id

/-- `newIDFromUnsupportedDID` (utils.go lines 271–281): the genesis is the
last 27 bytes of the SHA-256 digest of the DID string, the type is the
"other" method byte with the unknown-chain/unknown-network byte. -/
def newIDFromUnsupportedDID (did : DID) : List Nat :=
  let hash := sha256 (strBytes (didToString did))
  let genesis := hash.drop (hash.length - genesisLn)
  let flg := DIDNetworkFlag.mk UnknownChain UnknownNetwork
  let tp := [DIDMethodOther,
    (((DIDMethodNetwork DIDMethodOther).getD []).find? (fun p => p.1 == flg)
      |>.map (fun p => p.2)).getD 0]
  NewID tp genesis

/-- `IDFromDID` (utils.go lines 263–269): an unknown method falls back to
the hashed unsupported-DID ID. -/
def IDFromDID (did : DID) : Except Err (List Nat) :=
  match idFromDID did with
  | .error .methodUnknown => .ok (newIDFromUnsupportedDID did)
  | r => r

/-- `isUnsupportedDID` (utils.go lines 445–450). -/
def isUnsupportedDID (method : Nat) (blockchain networkID : String) : Bool :=
  method == DIDMethodOther && blockchain == UnknownChain &&
    networkID == UnknownNetwork

/-- `ParseDIDFromID` (utils.go lines 336–366). -/
def ParseDIDFromID (id : List Nat) : Except Err DID :=
  if ¬ CheckChecksum id then .error .unsupportedIDChecksum
  else
    match decodeDIDPartsFromID id with
    | .error e => .error e
    | .ok (method, blockchain, networkID) =>
        if isUnsupportedDID method blockchain networkID then
          .error .methodUnknown
        else
          let didParts := ["did", methodString method, blockchain] ++
            (if networkID ≠ "" then [networkID] else [])
          let didString := String.intercalate ":" (didParts ++ [idToString id])
          match parseDID didString with
          | none => .error .didParseFailed
          | some did => .ok did

/-- `EthAddressFromID` (utils.go lines 427–437): fails unless the 7 bytes
`id[2:9]` are zero, else returns the 20 bytes `id[9:29]`. -/
def EthAddressFromID (id : List Nat) : Option (List Nat) :=
  if (id.drop 2).take 7 = List.replicate 7 0 then
    some ((id.drop 9).take 20)
  else
    none

/-- `GenesisFromEthAddress` (utils.go lines 439–443): 7 zero bytes followed
by the 20 address bytes. -/
def GenesisFromEthAddress (addr : List Nat) : List Nat :=
  List.replicate 7 0 ++ addr

end CoreV2

/-! ## Helper lemmas -/

theorem byteLeadingZeros_le_seven (b : Nat) (hb : b ≠ 0) :
    byteLeadingZeros b ≤ 7 := by
  unfold byteLeadingZeros
  split_ifs <;> omega

/-- The first `d` bytes of a byte string are all zero exactly when the string
has at least `8 * d` leading zero bits. -/
theorem take_eq_replicate_iff_leadingZeroBits (l : List Nat) (d : Nat)
    (hd : d ≤ l.length) :
    (l.take d = List.replicate d 0) ↔ 8 * d ≤ leadingZeroBits l := by
  induction d generalizing l with
  | zero => simp
  | succ n ih =>
    cases l with
    | nil => simp at hd
    | cons b rest =>
      rw [List.take_succ_cons, List.replicate_succ, List.cons.injEq]
      by_cases hb : b = 0
      · subst hb
        have hrest := ih rest (by simpa using hd)
        have hlz : leadingZeroBits (0 :: rest) = 8 + leadingZeroBits rest := by
          simp [leadingZeroBits]
        rw [hlz]
        constructor
        · rintro ⟨-, h⟩; have := hrest.mp h; omega
        · intro h; exact ⟨rfl, hrest.mpr (by omega)⟩
      · have hlz : leadingZeroBits (b :: rest) = byteLeadingZeros b := by
          simp [leadingZeroBits, hb]
        rw [hlz]
        have h7 := byteLeadingZeros_le_seven b hb
        constructor
        · rintro ⟨h, -⟩; exact absurd h hb
        · intro h; omega

theorem sha256_length (msg : List Nat) : (sha256 msg).length = 32 := by
  simp [sha256, stateBytes, wordBytes]

theorem newID_take_two (typ gen : List Nat) (ht : typ.length = 2) :
    (NewID typ gen).take 2 = typ := by
  rw [NewID, List.append_assoc, ← ht, List.take_left]

theorem newID_drop_two (typ gen : List Nat) (ht : typ.length = 2) :
    (NewID typ gen).drop 2 = gen ++ CalculateChecksum typ gen := by
  rw [NewID, List.append_assoc, ← ht, List.drop_left]

theorem newID_genesis (typ gen : List Nat) (ht : typ.length = 2)
    (hg : gen.length = 27) :
    ((NewID typ gen).drop 2).take 27 = gen := by
  rw [newID_drop_two typ gen ht, ← hg, List.take_left]

theorem newID_checksum (typ gen : List Nat) (ht : typ.length = 2)
    (hg : gen.length = 27) :
    (NewID typ gen).drop 29 = CalculateChecksum typ gen := by
  have h29 : (29 : Nat) = 2 + 27 := rfl
  rw [h29, ← List.drop_drop, newID_drop_two typ gen ht, ← hg, List.drop_left]

theorem checkChecksum_newID (typ gen : List Nat) (ht : typ.length = 2)
    (hg : gen.length = 27) :
    CheckChecksum (NewID typ gen) = true := by
  rw [CheckChecksum, newID_take_two typ gen ht, genesisLn,
    newID_genesis typ gen ht hg, newID_checksum typ gen ht hg]
  exact beq_self_eq_true _

/-! ## C1: what the proof-of-work check verifies -/

/-- C1, counterexample: `CheckPoW` does not check leading zero *bits*.  The
hash `0x01 00 … 00` has 7 leading zero bits, so at difficulty 1 the claimed
bit-level check would accept it, but `CheckPoW` returns `false` (it checks
whole bytes). -/
theorem checkPoW_bits_counterexample :
    ¬ ((CheckPoW (1 :: List.replicate 31 0) 1 = some true) ↔
        1 ≤ leadingZeroBits (1 :: List.replicate 31 0)) := by
  decide

/-- C1, amended: for `0 ≤ difficulty ≤ 32`, `CheckPoW hash difficulty`
returns `true` iff the leading `difficulty` *bytes* of the hash are zero,
i.e. iff the hash has at least `8 * difficulty` leading zero bits. -/
theorem checkPoW_leading_zero_bytes (hash : List Nat) (d : Int)
    (hlen : hash.length = 32) (h0 : 0 ≤ d) (h32 : d ≤ 32) :
    CheckPoW hash d = some true ↔ 8 * d.toNat ≤ leadingZeroBits hash := by
  rw [CheckPoW, if_pos ⟨h0, h32⟩]
  simp only [Option.some.injEq, beq_iff_eq]
  exact take_eq_replicate_iff_leadingZeroBits hash d.toNat (by omega)

/-- C1, witness: at difficulty 2 the all-zero hash passes, and indeed has
`8 * 2 = 16` leading zero bits. -/
theorem checkPoW_leading_zero_bytes_witness :
    CheckPoW (List.replicate 32 0) 2 = some true ↔
      8 * (2 : Int).toNat ≤ leadingZeroBits (List.replicate 32 0) :=
  checkPoW_leading_zero_bytes (List.replicate 32 0) 2 (by decide) (by decide)
    (by decide)

/-! ## C9: domain of the proof-of-work check -/

/-- C9: the Go slicing in `CheckPoW` panics exactly when the difficulty is
negative or exceeds the 32-byte hash length (the `none` branch of the model),
and for `0 ≤ difficulty ≤ 32` the function is total. -/
theorem checkPoW_totality (hash : List Nat) (d : Int) (_hlen : hash.length = 32) :
    (CheckPoW hash d = none ↔ (d < 0 ∨ 32 < d)) ∧
      (0 ≤ d → d ≤ 32 → ∃ b, CheckPoW hash d = some b) := by
  constructor
  · rw [CheckPoW]
    by_cases h : 0 ≤ d ∧ d ≤ 32
    · rw [if_pos h]; simp; omega
    · rw [if_neg h]; simp; omega
  · intro h1 h2
    rw [CheckPoW, if_pos ⟨h1, h2⟩]
    exact ⟨_, rfl⟩

/-- C9, witness: difficulty 33 hits the panic branch, difficulty 0 does not. -/
theorem checkPoW_totality_witness :
    (CheckPoW (List.replicate 32 0) 33 = none ↔
        ((33 : Int) < 0 ∨ (32 : Int) < 33)) ∧
      ∃ b, CheckPoW (List.replicate 32 0) 0 = some b :=
  ⟨(checkPoW_totality (List.replicate 32 0) 33 (by decide)).1,
   (checkPoW_totality (List.replicate 32 0) 0 (by decide)).2 (by decide)
     (by decide)⟩

/-! ## C10: the timestamp check only rejects expiry in the past direction -/

/-- C10: `VerifyTimestamp` accepts exactly when the (truncated) elapsed
seconds are at most `timelimit`; in particular any timestamp lying at or
after `now` — arbitrarily far in the future — is accepted whenever
`timelimit` is non-negative: there is no upper-bound check. -/
theorem verifyTimestamp_expiry_only (nowNs : Int) (ts : Nat) (tl : Int) :
    (VerifyTimestamp nowNs ts tl = true ↔ elapsedSeconds nowNs ts ≤ tl) ∧
      (0 ≤ tl → nowNs ≤ unixTimeNs ts → VerifyTimestamp nowNs ts tl = true) := by
  have hchar : VerifyTimestamp nowNs ts tl = true ↔ elapsedSeconds nowNs ts ≤ tl := by
    rw [VerifyTimestamp]
    split_ifs with h
    · simp; omega
    · simp; omega
  refine ⟨hchar, fun htl hfut => ?_⟩
  rw [hchar]
  have hnum : nowNs - unixTimeNs ts ≤ 0 := by omega
  have hdiv : Int.tdiv (nowNs - unixTimeNs ts) 1000000000 ≤ 0 := by
    have ha : (0 : Int) ≤ -(nowNs - unixTimeNs ts) := by omega
    have h1 : (0 : Int) ≤ (-(nowNs - unixTimeNs ts)).tdiv 1000000000 :=
      Int.tdiv_nonneg ha (by norm_num)
    have h2 : (-(nowNs - unixTimeNs ts)).tdiv 1000000000 =
        -((nowNs - unixTimeNs ts).tdiv 1000000000) :=
      Int.neg_tdiv _ _
    omega
  calc elapsedSeconds nowNs ts ≤ 0 := hdiv
    _ ≤ tl := htl

/-- C10, witness: a timestamp 1000 seconds in the future of `now = 0` passes
with a zero time limit. -/
theorem verifyTimestamp_expiry_only_witness :
    VerifyTimestamp 0 1000 0 = true :=
  (verifyTimestamp_expiry_only 0 1000 0).2 (by decide) (by decide)

/-! ## C5: the chain-address genesis round-trip -/

/-- C5: `EthAddressFromID` inverts `GenesisFromEthAddress` — building an ID
from a 20-byte address recovers the address — and it fails whenever any of
the 7 reserved genesis bytes `id[2:9]` is non-zero. -/
theorem ethAddress_genesis_inverse :
    (∀ typ addr : List Nat, typ.length = 2 → addr.length = 20 →
      CoreV2.EthAddressFromID (NewID typ (CoreV2.GenesisFromEthAddress addr)) =
        some addr) ∧
    (∀ id : List Nat, (id.drop 2).take 7 ≠ List.replicate 7 0 →
      CoreV2.EthAddressFromID id = none) := by
  constructor
  · intro typ addr ht ha
    have hglen : (CoreV2.GenesisFromEthAddress addr).length = 27 := by
      simp [CoreV2.GenesisFromEthAddress, ha]
    have hdrop2 : (NewID typ (CoreV2.GenesisFromEthAddress addr)).drop 2 =
        List.replicate 7 0 ++
          (addr ++ CalculateChecksum typ (CoreV2.GenesisFromEthAddress addr)) := by
      rw [newID_drop_two _ _ ht, CoreV2.GenesisFromEthAddress, List.append_assoc]
    have htake7 : ((NewID typ (CoreV2.GenesisFromEthAddress addr)).drop 2).take 7 =
        List.replicate 7 0 := by
      rw [hdrop2]
      exact List.take_left' (by simp)
    have hdrop9 : (NewID typ (CoreV2.GenesisFromEthAddress addr)).drop 9 =
        addr ++ CalculateChecksum typ (CoreV2.GenesisFromEthAddress addr) := by
      have h9 : (9 : Nat) = 2 + 7 := rfl
      rw [h9, ← List.drop_drop, hdrop2]
      exact List.drop_left' (by simp)
    rw [CoreV2.EthAddressFromID, if_pos htake7, hdrop9, List.take_left' ha]
  · intro id hbad
    rw [CoreV2.EthAddressFromID, if_neg hbad]

/-- C5, witness: the round-trip at a concrete address and the failure at an
ID whose reserved bytes are non-zero. -/
theorem ethAddress_genesis_inverse_witness :
    CoreV2.EthAddressFromID
        (NewID [1, 0x11] (CoreV2.GenesisFromEthAddress (List.replicate 20 9))) =
      some (List.replicate 20 9) ∧
    CoreV2.EthAddressFromID (NewID [1, 0x11] (List.replicate 27 1)) = none :=
  ⟨ethAddress_genesis_inverse.1 [1, 0x11] (List.replicate 20 9) (by decide)
      (by decide),
   ethAddress_genesis_inverse.2 (NewID [1, 0x11] (List.replicate 27 1))
      (by decide)⟩

/-! ## C8: the unknown-method sentinel never parses back to a DID -/

/-- Any checksummed ID whose two type bytes are the `0xFF` sentinels decodes
to the other/unknown triple and is rejected by `ParseDIDFromID`. -/
theorem parseDIDFromID_sentinel_aux (id : List Nat)
    (hck : CheckChecksum id = true) (h0 : id.getD 0 0 = 255)
    (h1 : id.getD 1 0 = 255) :
    CoreV2.ParseDIDFromID id = .error .methodUnknown := by
  have hdec : CoreV2.decodeDIDPartsFromID id =
      .ok (255, UnknownChain, UnknownNetwork) := by
    unfold CoreV2.decodeDIDPartsFromID
    rw [h0, h1]
    rfl
  rw [CoreV2.ParseDIDFromID, hck]
  rw [if_neg (show ¬ ¬ (true = true) by simp)]
  rw [hdec]
  rfl

/-- C8: an ID produced with the other/unknown-method sentinel type bytes
`{0xFF, 0xFF}` (as the unsupported-DID fallback produces them) never
reverses to a DID string: `ParseDIDFromID` always returns the unknown-method
error. -/
theorem parseDIDFromID_unsupported_errors (gen : List Nat)
    (hg : gen.length = 27) :
    CoreV2.ParseDIDFromID (NewID [255, 255] gen) = .error .methodUnknown := by
  apply parseDIDFromID_sentinel_aux
  · exact checkChecksum_newID [255, 255] gen rfl hg
  · rfl
  · rfl

/-- C8, witness: the sentinel-typed ID over an all-zero genesis is rejected. -/
theorem parseDIDFromID_unsupported_errors_witness :
    CoreV2.ParseDIDFromID (NewID [255, 255] (List.replicate 27 0)) =
      .error .methodUnknown :=
  parseDIDFromID_unsupported_errors (List.replicate 27 0) (by decide)

/-! ## C4: the unsupported-DID fallback is deterministic -/

/-- The fallback ID spelled out: sentinel type bytes `{0xFF, 0xFF}` over the
last 27 bytes of the SHA-256 digest of the DID string. -/
theorem newIDFromUnsupportedDID_eq (d : DID) :
    CoreV2.newIDFromUnsupportedDID d =
      NewID [255, 255] ((sha256 (strBytes (didToString d))).drop 5) := by
  simp only [CoreV2.newIDFromUnsupportedDID]
  rw [sha256_length]
  rfl

/-- C4: converting a DID of an unknown method is deterministic and
structured.  For any two DIDs with unknown method (the `ErrMethodUnknown`
branch of `idFromDID`) and equal string forms, `IDFromDID` succeeds on both
with byte-identical IDs, whose type bytes are the other/unknown sentinels
`{0xFF, 0xFF}` and whose genesis is the 27-byte truncation of the SHA-256
digest of the full DID string. -/
theorem unsupportedDID_deterministic (d1 d2 : DID)
    (h1 : CoreV2.idFromDID d1 = .error .methodUnknown)
    (h2 : CoreV2.idFromDID d2 = .error .methodUnknown)
    (hs : didToString d1 = didToString d2) :
    CoreV2.IDFromDID d1 =
      .ok (NewID [255, 255] ((sha256 (strBytes (didToString d1))).drop 5)) ∧
    CoreV2.IDFromDID d1 = CoreV2.IDFromDID d2 := by
  have e1 : CoreV2.IDFromDID d1 = .ok (CoreV2.newIDFromUnsupportedDID d1) := by
    rw [CoreV2.IDFromDID, h1]
  have e2 : CoreV2.IDFromDID d2 = .ok (CoreV2.newIDFromUnsupportedDID d2) := by
    rw [CoreV2.IDFromDID, h2]
  constructor
  · rw [e1, newIDFromUnsupportedDID_eq]
  · rw [e1, e2, newIDFromUnsupportedDID_eq, newIDFromUnsupportedDID_eq, hs]

/-- C4, witness: a concrete unknown-method DID maps to the hashed fallback
ID, twice identically. -/
theorem unsupportedDID_deterministic_witness :
    CoreV2.IDFromDID ⟨"example", ["xyz"]⟩ =
      Except.ok (NewID [255, 255]
        ((sha256 (strBytes (didToString ⟨"example", ["xyz"]⟩))).drop 5)) ∧
    CoreV2.IDFromDID ⟨"example", ["xyz"]⟩ =
      CoreV2.IDFromDID ⟨"example", ["xyz"]⟩ :=
  unsupportedDID_deterministic ⟨"example", ["xyz"]⟩ ⟨"example", ["xyz"]⟩
    rfl rfl rfl

/-! ## C2: segment/ID mismatches are hard errors -/

/-- C2: whenever the trailing segment of a DID decodes to a well-formed,
checksum-valid ID whose type byte decodes, but the method — or a present
blockchain or network segment — disagrees with the values decoded from the
ID, `Decompose` (v1) and `idFromDID` (v2) return exactly the specific
mismatch error for the first disagreeing field, never a success and never a
silently-resolved value. -/
theorem decompose_mismatch_error :
    (∀ (did : DID) (id : List Nat) (m bc nw : String),
      CoreV1.decodeIDFromDID did = .ok id →
      CoreV1.decodeDIDPartsFromID id = .ok (m, bc, nw) →
      (m ≠ did.Method ∨
        (1 < did.IDStrings.length ∧ bc ≠ did.IDStrings.getD 0 "") ∨
        (2 < did.IDStrings.length ∧ nw ≠ did.IDStrings.getD 1 "")) →
      CoreV1.Decompose did = .error
        (if m ≠ did.Method then .invalidDIDMethodMismatch
         else if 1 < did.IDStrings.length ∧ bc ≠ did.IDStrings.getD 0 "" then
           .invalidDIDBlockchainMismatch
         else .invalidDIDNetworkMismatch)) ∧
    (∀ (did : DID) (id : List Nat) (m : Nat) (bc nw : String),
      CoreV2.knownMethods.any (fun k => CoreV2.methodString k == did.Method) = true →
      1 ≤ did.IDStrings.length → did.IDStrings.length ≤ 3 →
      IDFromString (did.IDStrings.getLastD "") = some id →
      CheckChecksum id = true →
      CoreV2.decodeDIDPartsFromID id = .ok (m, bc, nw) →
      (CoreV2.methodString m ≠ did.Method ∨
        (1 < did.IDStrings.length ∧ bc ≠ did.IDStrings.getD 0 "") ∨
        (2 < did.IDStrings.length ∧ nw ≠ did.IDStrings.getD 1 "")) →
      CoreV2.idFromDID did = .error
        (if CoreV2.methodString m ≠ did.Method then .incorrectDIDMethodMismatch
         else if 1 < did.IDStrings.length ∧ bc ≠ did.IDStrings.getD 0 "" then
           .incorrectDIDBlockchainMismatch
         else .incorrectDIDNetworkMismatch)) := by
  constructor
  · intro did id m bc nw hdec hparts hmis
    rw [CoreV1.Decompose]
    simp only [hdec]
    simp only [hparts]
    by_cases hA : m ≠ did.Method
    · rw [if_pos hA, if_pos hA]
    · rw [if_neg hA, if_neg hA]
      by_cases hB : 1 < did.IDStrings.length ∧ bc ≠ did.IDStrings.getD 0 ""
      · rw [if_pos hB, if_pos hB]
      · rw [if_neg hB, if_neg hB]
        have hC : 2 < did.IDStrings.length ∧ nw ≠ did.IDStrings.getD 1 "" := by
          tauto
        rw [if_pos hC]
  · intro did id m bc nw hknown hlen1 hlen3 hid hck hparts hmis
    rw [CoreV2.idFromDID]
    rw [if_neg (show ¬ ¬ (CoreV2.knownMethods.any
      (fun k => CoreV2.methodString k == did.Method) = true) by rw [hknown]; simp)]
    rw [if_neg (show ¬ (did.IDStrings.length > 3 ∨ did.IDStrings.length < 1) by
      omega)]
    simp only [hid]
    rw [if_neg (show ¬ ¬ (CheckChecksum id = true) by rw [hck]; simp)]
    simp only [hparts]
    by_cases hA : CoreV2.methodString m ≠ did.Method
    · rw [if_pos hA, if_pos hA]
    · rw [if_neg hA, if_neg hA]
      by_cases hB : 1 < did.IDStrings.length ∧ bc ≠ did.IDStrings.getD 0 ""
      · rw [if_pos hB, if_pos hB]
      · rw [if_neg hB, if_neg hB]
        have hC : 2 < did.IDStrings.length ∧ nw ≠ did.IDStrings.getD 1 "" := by
          tauto
        rw [if_pos hC]

/-- C2, witness: a DID string carrying blockchain segment `eth` around an ID
whose type byte says `polygon` is rejected with the blockchain-mismatch
error, in both package versions. -/
theorem decompose_mismatch_error_witness :
    CoreV1.Decompose
        ⟨"iden3", ["eth", "whhyWmcGPBhWbe5VHWZpeMXkQt2MCJX1QRBGepR1R"]⟩ =
      .error .invalidDIDBlockchainMismatch ∧
    CoreV2.idFromDID
        ⟨"iden3", ["eth", "whhyWmcGPBhWbe5VHWZpeMXkQt2MCJX1QRBGepR1R"]⟩ =
      .error .incorrectDIDBlockchainMismatch := by
  constructor
  · have h := decompose_mismatch_error.1
      ⟨"iden3", ["eth", "whhyWmcGPBhWbe5VHWZpeMXkQt2MCJX1QRBGepR1R"]⟩
      ([1, 17] ++ List.replicate 27 0 ++ [18, 0]) "iden3" "polygon" "main"
      (by rfl) (by rfl) (by right; left; exact ⟨by decide, by decide⟩)
    rw [h]; rfl
  · have h := decompose_mismatch_error.2
      ⟨"iden3", ["eth", "whhyWmcGPBhWbe5VHWZpeMXkQt2MCJX1QRBGepR1R"]⟩
      ([1, 17] ++ List.replicate 27 0 ++ [18, 0]) 1 "polygon" "main"
      (by rfl) (by decide) (by decide) (by rfl) (by rfl) (by rfl)
      (by right; left; exact ⟨by decide, by decide⟩)
    rw [h]; rfl

/-! ## C3: the type table round-trips -/

/-- C3: for every `(blockchain, network) ↦ byte` entry of a known method's
table, encoding with `BuildDIDType` produces exactly that byte pair, and
decoding the byte with the two reverse lookups returns exactly the original
blockchain and network. -/
theorem didType_roundtrip (m : Nat) (flag : DIDNetworkFlag) (b : Nat)
    (hm : m ∈ CoreV2.knownMethods)
    (hmem : (flag, b) ∈ (CoreV2.DIDMethodNetwork m).getD []) :
    CoreV2.BuildDIDType m flag.Blockchain flag.NetworkID = .ok [m, b] ∧
    CoreV2.FindBlockchainForDIDMethodByValue m b = .ok flag.Blockchain ∧
    CoreV2.FindNetworkIDForDIDMethodByValue m b = .ok flag.NetworkID := by
  have hm' : m = CoreV2.DIDMethodIden3 ∨ m = CoreV2.DIDMethodPolygonID := by
    simpa [CoreV2.knownMethods] using hm
  rcases hm' with rfl | rfl <;>
    · simp only [CoreV2.DIDMethodNetwork, CoreV2.DIDMethodIden3,
        CoreV2.DIDMethodPolygonID, knownMethodTable, if_pos, if_neg,
        Option.getD_some, reduceIte] at hmem
      fin_cases hmem <;> exact ⟨rfl, rfl, rfl⟩

/-- C3, witness: the round-trip at `(iden3, polygon, main) ↦ 0x11`. -/
theorem didType_roundtrip_witness :
    CoreV2.BuildDIDType 1 Polygon Main = .ok [1, 0x11] ∧
    CoreV2.FindBlockchainForDIDMethodByValue 1 0x11 = .ok Polygon ∧
    CoreV2.FindNetworkIDForDIDMethodByValue 1 0x11 = .ok Main :=
  didType_roundtrip 1 ⟨Polygon, Main⟩ 0x11 (by decide) (by decide)

/-! ## C6: the concrete iden3/polygon/main type bytes -/

/-- C6: `BuildDIDType(DIDMethodIden3, Polygon, Main)` returns the byte pair
`{0x01, 0x11}` and no error, in both package versions. -/
theorem buildDIDType_iden3_polygon_main :
    CoreV2.BuildDIDType CoreV2.DIDMethodIden3 Polygon Main = .ok [0x01, 0x11] ∧
    CoreV1.BuildDIDType CoreV1.DIDMethodIden3 Polygon Main = .ok [0x01, 0x11] :=
  ⟨rfl, rfl⟩

/-! ## C7: no-chain normalization and the only two failure modes -/

/-- C7: `BuildDIDType` treats the empty no-chain blockchain exactly like the
read-only blockchain (in both package versions), and it can fail only in two
ways: with the unsupported-method error exactly when the method is outside
the known table, or with the unsupported-network error when the method is
known but the normalized `(blockchain, network)` pair is absent from the
method's table. -/
theorem buildDIDType_noChain_and_errors :
    (∀ (m : Nat) (n : String),
      CoreV2.BuildDIDType m NoChain n = CoreV2.BuildDIDType m ReadOnly n) ∧
    (∀ (m n : String),
      CoreV1.BuildDIDType m NoChain n = CoreV1.BuildDIDType m ReadOnly n) ∧
    (∀ (m : Nat) (b n : String) (e : CoreV2.Err),
      CoreV2.BuildDIDType m b n = .error e →
      (e = .didMethodNotSupported ∧ m ∉ CoreV2.knownMethods) ∨
      (e = .networkNotSupportedForDID ∧ m ∈ CoreV2.knownMethods ∧
        ∀ v : Nat,
          (DIDNetworkFlag.mk (if b = NoChain then ReadOnly else b) n, v) ∉
            (CoreV2.DIDMethodNetwork m).getD [])) ∧
    (∀ (m b n : String) (e : CoreV1.Err),
      CoreV1.BuildDIDType m b n = .error e →
      (e = .didMethodNotSupported ∧ ∀ fb : Nat, (m, fb) ∉ CoreV1.DIDMethodByte) ∨
      (e = .networkNotSupportedForDID ∧
        (∃ fb : Nat, (m, fb) ∈ CoreV1.DIDMethodByte) ∧
        ∀ v : Nat,
          (DIDNetworkFlag.mk (if b = NoChain then ReadOnly else b) n, v) ∉
            (CoreV1.DIDMethodNetwork m).getD [])) := by
  refine ⟨?_, ?_, ?_, ?_⟩
  · intro m n
    simp only [CoreV2.BuildDIDType, reduceIte, ite_self]
  · intro m n
    simp only [CoreV1.BuildDIDType, reduceIte, ite_self]
  · intro m b n e h
    rw [CoreV2.BuildDIDType] at h
    by_cases hm : m ∈ CoreV2.knownMethods
    · rw [if_pos hm] at h
      right
      rcases hfind : ((CoreV2.DIDMethodNetwork m).getD []).find?
          (fun p => p.1 == DIDNetworkFlag.mk
            (if b = NoChain then ReadOnly else b) n) with - | p
      · rw [hfind] at h
        injection h with he
        refine ⟨he.symm, hm, fun v hv => ?_⟩
        have hnone := List.find?_eq_none.mp hfind _ hv
        simp at hnone
      · rw [hfind] at h
        simp at h
    · rw [if_neg hm] at h
      injection h with he
      exact Or.inl ⟨he.symm, hm⟩
  · intro m b n e h
    rw [CoreV1.BuildDIDType] at h
    rcases hfb : CoreV1.DIDMethodByte.find? (fun p => p.1 == m) with - | fb
    · rw [hfb] at h
      injection h with he
      refine Or.inl ⟨he.symm, fun v hv => ?_⟩
      have hnone := List.find?_eq_none.mp hfb _ hv
      simp at hnone
    · rw [hfb] at h
      rcases hfind : ((CoreV1.DIDMethodNetwork m).getD []).find?
          (fun p => p.1 == DIDNetworkFlag.mk
            (if b = NoChain then ReadOnly else b) n) with - | p
      · rw [hfind] at h
        injection h with he
        refine Or.inr ⟨he.symm, ⟨fb.2, ?_⟩, fun v hv => ?_⟩
        · have hmem := List.mem_of_find?_eq_some hfb
          have hfb1 : fb.1 = m := by
            have := List.find?_some hfb
            simpa using this
          have hpair : (m, fb.2) = fb := by rw [← hfb1]
          rw [hpair]
          exact hmem
        · have hnone := List.find?_eq_none.mp hfind _ hv
          simp at hnone
      · rw [hfind] at h
        simp at h

/-- C7, witness: no-chain equals read-only for iden3; an unknown method byte
fails with the unsupported-method error. -/
theorem buildDIDType_noChain_and_errors_witness :
    CoreV2.BuildDIDType 1 NoChain "" = CoreV2.BuildDIDType 1 ReadOnly "" ∧
    ((CoreV2.Err.didMethodNotSupported = .didMethodNotSupported ∧
        (7 : Nat) ∉ CoreV2.knownMethods) ∨
      (CoreV2.Err.didMethodNotSupported = .networkNotSupportedForDID ∧
        (7 : Nat) ∈ CoreV2.knownMethods ∧
        ∀ v : Nat,
          (DIDNetworkFlag.mk (if "x" = NoChain then ReadOnly else "x") "y", v) ∉
            (CoreV2.DIDMethodNetwork 7).getD [])) :=
  ⟨buildDIDType_noChain_and_errors.1 1 "",
   buildDIDType_noChain_and_errors.2.2.1 7 "x" "y" .didMethodNotSupported rfl⟩

end Iden3
